import Mathlib

/-!
Verification development for the mitoxide repository: a shallow embedding
of the wire protocol (frames, MessagePack codec, stream multiplexer), the
client router, the agent dispatch loop, the SSH bootstrap strategy
selection, and the WASM module loader, together with theorems checking the
natural-language specification against the embedded code.

Conventions of the embedding:
* Rust `u8`/`u32`/`u64`/`usize` values are Lean `Nat`s; wherever the source
  can overflow, the reduction `% 2 ^ w` is written explicitly.
* `bytes::Bytes` and `Vec<u8>` are `List Nat` (each element a byte value).
* `Uuid` request identifiers are `Nat`s (only identity matters here).
* `HashMap` keys to values are association lists (`List (Nat × α)`); the
  helper functions below mirror `get`, `get_mut`, `insert` and `remove`.
* Fallible Rust functions returning `Result<T, E>` become `Except E T`.
* Asynchronous channels are modelled by their observable state: a sender
  whose receiver half was dropped has `receiverAlive = false` and a send on
  it fails, exactly as `tokio::sync::mpsc`/`oneshot` sends fail.
-/

namespace Mitoxide

/-! ## Association-list helpers (the shallow embedding of `HashMap`) -/

/-- `HashMap::get` on an association list with `Nat` keys. -/
def alookup {α : Type} : List (Nat × α) → Nat → Option α
  | [], _ => none
  | (k, v) :: t, key => if k = key then some v else alookup t key

/-- `HashMap::insert` (replacing an existing binding for the key). -/
def ainsert {α : Type} : List (Nat × α) → Nat → α → List (Nat × α)
  | [], key, v => [(key, v)]
  | (k, w) :: t, key, v => if k = key then (key, v) :: t else (k, w) :: ainsert t key v

/-- `HashMap::get_mut` followed by a field update: apply `f` to the value
bound to `key`, leaving every other binding untouched. -/
def aupdate {α : Type} : List (Nat × α) → Nat → (α → α) → List (Nat × α)
  | [], _, _ => []
  | (k, v) :: t, key, f => if k = key then (k, f v) :: t else (k, v) :: aupdate t key f

/-- `HashMap::remove`. -/
def aerase {α : Type} : List (Nat × α) → Nat → List (Nat × α)
  | [], _ => []
  | (k, v) :: t, key => if k = key then t else (k, v) :: aerase t key

/-! ## Substring search (the shallow embedding of `str::contains`) -/

/-- Whether `p` is a prefix of `s` (comparing `Char`s with `==`). -/
def listStartsWith : List Char → List Char → Bool
  | [], _ => true
  | _ :: _, [] => false
  | a :: p, b :: s => a == b && listStartsWith p s

/-- Whether `needle` occurs contiguously inside the second list. -/
def listContainsSub (needle : List Char) : List Char → Bool
  | [] => listStartsWith needle []
  | c :: t => listStartsWith needle (c :: t) || listContainsSub needle t

/-- Rust `str::contains(pat)` for string slices. -/
def containsSubstr (hay pat : String) : Bool :=
  listContainsSub pat.data hay.data

/-- Rust `str::starts_with(p)`. -/
def strStartsWith (s p : String) : Bool :=
  listStartsWith p.data s.data

/-- Rust `char::is_whitespace`, restricted to the ASCII whitespace the
probe outputs can contain. -/
def isRustWhitespace (c : Char) : Bool :=
  c == ' ' || c == '\t' || c == '\n' || c == '\r'

/-- Rust `str::trim`: leading and trailing whitespace removed. -/
def rustTrim (s : String) : String :=
  ⟨((s.data.dropWhile isRustWhitespace).reverse.dropWhile isRustWhitespace).reverse⟩

/-! ## Message schema (`mitoxide-proto/src/message.rs`) -/

/-- `ErrorCode` of `message.rs`. -/
inductive ErrorCode where
  | InvalidRequest
  | FileNotFound
  | PermissionDenied
  | ProcessFailed
  | WasmFailed
  | Timeout
  | InternalError
  | Unsupported
  | ResourceExhausted
  | PrivilegeEscalationFailed
deriving DecidableEq, Repr

/-- `ErrorDetails` of `message.rs`. -/
structure ErrorDetails where
  code : ErrorCode
  message : String
  context : List (String × String)
deriving DecidableEq, Repr

/-- `ErrorDetails::new`: empty context map. -/
def ErrorDetails.new (code : ErrorCode) (message : String) : ErrorDetails :=
  ⟨code, message, []⟩

/-- `PrivilegeMethod` of `message.rs`. -/
inductive PrivilegeMethod where
  | Sudo
  | Su
  | Doas
  | Custom (cmd : String)
deriving DecidableEq, Repr

/-- `Credentials` of `message.rs`. -/
structure Credentials where
  username : Option String
  password : Option String
deriving DecidableEq, Repr

/-- `PrivilegeEscalation` of `message.rs`. -/
structure PrivilegeEscalation where
  method : PrivilegeMethod
  credentials : Option Credentials
  prompt_patterns : List String
deriving DecidableEq, Repr

/-- `Request` of `message.rs`: the eight request kinds, each carrying its
request id first. Paths are strings, `Bytes` are `List Nat`. -/
inductive Request where
  | ProcessExec (id : Nat) (command : List String) (env : List (String × String))
      (cwd : Option String) (stdin : Option (List Nat)) (timeout : Option Nat)
  | FileGet (id : Nat) (path : String) (range : Option (Nat × Nat))
  | FilePut (id : Nat) (path : String) (content : List Nat) (mode : Option Nat)
      (create_dirs : Bool)
  | DirList (id : Nat) (path : String) (include_hidden : Bool) (recursive : Bool)
  | WasmExec (id : Nat) (module : List Nat) (input : List Nat) (timeout : Option Nat)
  | JsonCall (id : Nat) (method : String) (params : List Nat)
  | Ping (id : Nat) (timestamp : Nat)
  | PtyExec (id : Nat) (command : List String) (env : List (String × String))
      (cwd : Option String) (privilege : Option PrivilegeEscalation) (timeout : Option Nat)
deriving DecidableEq, Repr

/-- `Request::id`. -/
def Request.id : Request → Nat
  | .ProcessExec id .. => id
  | .FileGet id .. => id
  | .FilePut id .. => id
  | .DirList id .. => id
  | .WasmExec id .. => id
  | .JsonCall id .. => id
  | .Ping id .. => id
  | .PtyExec id .. => id

/-- `FileMetadata` of `message.rs`. -/
structure FileMetadata where
  size : Nat
  mode : Nat
  modified : Nat
  is_dir : Bool
  is_symlink : Bool
deriving DecidableEq, Repr

/-- `DirEntry` of `message.rs`. -/
structure DirEntry where
  name : String
  path : String
  metadata : FileMetadata
deriving DecidableEq, Repr

/-- `Response` of `message.rs`: the nine response kinds, each carrying the
id of the request it answers. -/
inductive Response where
  | ProcessResult (request_id : Nat) (exit_code : Int) (stdout : List Nat)
      (stderr : List Nat) (duration_ms : Nat)
  | FileContent (request_id : Nat) (content : List Nat) (metadata : FileMetadata)
  | FilePutResult (request_id : Nat) (bytes_written : Nat)
  | DirListing (request_id : Nat) (entries : List DirEntry)
  | WasmResult (request_id : Nat) (output : List Nat) (duration_ms : Nat)
  | JsonResult (request_id : Nat) (result : List Nat)
  | Pong (request_id : Nat) (timestamp : Nat) (response_timestamp : Nat)
  | PtyResult (request_id : Nat) (exit_code : Int) (output : List Nat) (duration_ms : Nat)
  | Error (request_id : Nat) (error : ErrorDetails)
deriving DecidableEq, Repr

/-- `Response::request_id`. -/
def Response.request_id : Response → Nat
  | .ProcessResult id .. => id
  | .FileContent id .. => id
  | .FilePutResult id .. => id
  | .DirListing id .. => id
  | .WasmResult id .. => id
  | .JsonResult id .. => id
  | .Pong id .. => id
  | .PtyResult id .. => id
  | .Error id .. => id

/-- `Response::error`. -/
def Response.mkError (request_id : Nat) (error : ErrorDetails) : Response :=
  .Error request_id error

/-- `Response::pong`: echoes the incoming timestamp (the response timestamp
is taken from the system clock; it is a parameter here). -/
def Response.pong (request_id : Nat) (timestamp now : Nat) : Response :=
  .Pong request_id timestamp now

/-- `Message` of `message.rs`. -/
inductive Message where
  | Request (req : Request)
  | Response (resp : Response)
deriving DecidableEq, Repr

/-- `Message::request_id`: some id for both variants. -/
def Message.request_id : Message → Option Nat
  | .Request req => some req.id
  | .Response resp => some resp.request_id

/-! ## Bootstrap strategy selection (`mitoxide-ssh/src/bootstrap.rs`) -/

/-- `BootstrapMethod`, in the declaration order of `bootstrap.rs`. -/
inductive BootstrapMethod where
  | MemfdCreate
  | TempFile
  | DevShm
  | Python
  | Shell
deriving DecidableEq, Repr

/-- `TransportError` of `mitoxide-ssh/src/error.rs` (the variants the
bootstrap path uses). -/
inductive TransportError where
  | Connection (msg : String)
  | Bootstrap (msg : String)
  | CommandFailed (code : Int) (msg : String)
deriving DecidableEq, Repr

/-- `PlatformInfo` of `bootstrap.rs`. -/
structure PlatformInfo where
  arch : String
  os : String
  version : Option String
  bootstrap_methods : List BootstrapMethod
deriving DecidableEq, Repr

/-- `Bootstrap` of `bootstrap.rs` (the two fields of the struct). -/
structure Bootstrap where
  platform_info : Option PlatformInfo
  custom_script : Option String
deriving DecidableEq, Repr

/-- The outcomes of the remote probe commands `detect_bootstrap_methods`
runs over the transport: for each command, `some output` when it succeeded
with that stdout, `none` when it failed. `python_ok` is whether the python
version command succeeded (only success is inspected). -/
structure ProbeResults where
  os : String
  memfd_output : Option String
  python_ok : Bool
  devshm_output : Option String
  tmp_output : Option String

/-- `if let Ok(output) = ... { if output.trim() == s { ... } }`: the probe
command succeeded and its trimmed output equals `s`. -/
def probeOutputIs (o : Option String) (s : String) : Bool :=
  match o with
  | some out => rustTrim out == s
  | none => false

/-- `Bootstrap::detect_bootstrap_methods`: pushes, in program order,
`MemfdCreate` (Linux and the memfd probe printed `True`), then `Python`,
then `DevShm`, then `TempFile`, and always `Shell` last. -/
def Bootstrap.detect_bootstrap_methods (p : ProbeResults) : List BootstrapMethod :=
  (if p.os == "Linux" && probeOutputIs p.memfd_output "True" then [.MemfdCreate] else []) ++
  (if p.python_ok then [.Python] else []) ++
  (if probeOutputIs p.devshm_output "available" then [.DevShm] else []) ++
  (if probeOutputIs p.tmp_output "available" then [.TempFile] else []) ++
  [.Shell]

/-- `Bootstrap::generate_memfd_script` (the raw string literal, after the
`.trim()` the source applies). -/
def Bootstrap.generate_memfd_script : String :=
  "set -e\npython3 -c \"\nimport os, sys, ctypes\ntry:\n    libc = ctypes.CDLL('libc.so.6')\n    fd = libc.syscall(319, b'mitoxide-agent', 1)  # memfd_create\n    if fd >= 0:\n        agent_data = sys.stdin.buffer.read()\n        os.write(fd, agent_data)\n        os.fexecve(fd, ['/proc/self/fd/%d' % fd], os.environ)\n    else:\n        raise Exception('memfd_create failed')\nexcept Exception as e:\n    print(f'memfd_create failed: {e}', file=sys.stderr)\n    sys.exit(1)\n\""

/-- `Bootstrap::generate_python_script` (trimmed raw string literal). -/
def Bootstrap.generate_python_script : String :=
  "set -e\npython3 -c \"\nimport os, sys, tempfile, stat\ntry:\n    with tempfile.NamedTemporaryFile(delete=False, mode='wb') as f:\n        agent_data = sys.stdin.buffer.read()\n        f.write(agent_data)\n        f.flush()\n        os.chmod(f.name, stat.S_IRWXU)\n        os.execv(f.name, [f.name])\nexcept Exception as e:\n    print(f'Python bootstrap failed: {e}', file=sys.stderr)\n    sys.exit(1)\n\""

/-- `Bootstrap::generate_devshm_script` (trimmed raw string literal). Note:
unlike the `/tmp` variant below, this script installs no `trap`. -/
def Bootstrap.generate_devshm_script : String :=
  "set -e\nAGENT_PATH=\"/dev/shm/mitoxide-agent-$$-$(date +%s)\"\ncat > \"$AGENT_PATH\"\nchmod +x \"$AGENT_PATH\"\nexec \"$AGENT_PATH\""

/-- `Bootstrap::generate_tempfile_script` (trimmed raw string literal). -/
def Bootstrap.generate_tempfile_script : String :=
  "set -e\nAGENT_PATH=\"/tmp/mitoxide-agent-$$-$(date +%s)\"\ncat > \"$AGENT_PATH\"\nchmod +x \"$AGENT_PATH\"\ntrap 'rm -f \"$AGENT_PATH\" 2>/dev/null || true' EXIT\nexec \"$AGENT_PATH\""

/-- `Bootstrap::generate_shell_script` (trimmed raw string literal). -/
def Bootstrap.generate_shell_script : String :=
  "set -e\n# Try to find a writable directory\nfor dir in /dev/shm /tmp /var/tmp; do\n    if [ -d \"$dir\" ] && [ -w \"$dir\" ]; then\n        AGENT_PATH=\"$dir/mitoxide-agent-$$-$(date +%s)\"\n        cat > \"$AGENT_PATH\"\n        chmod +x \"$AGENT_PATH\"\n        trap 'rm -f \"$AGENT_PATH\" 2>/dev/null || true' EXIT\n        exec \"$AGENT_PATH\"\n        break\n    fi\ndone\necho \"No writable directory found for agent bootstrap\" >&2\nexit 1"

/-- The `match method { ... }` arm of `generate_bootstrap_script`. -/
def Bootstrap.scriptFor : BootstrapMethod → String
  | .MemfdCreate => Bootstrap.generate_memfd_script
  | .Python => Bootstrap.generate_python_script
  | .DevShm => Bootstrap.generate_devshm_script
  | .TempFile => Bootstrap.generate_tempfile_script
  | .Shell => Bootstrap.generate_shell_script

/-- `Bootstrap::generate_bootstrap_script`: requires a detected platform,
honours a custom script, otherwise uses the FIRST entry of
`platform_info.bootstrap_methods`. -/
def Bootstrap.generate_bootstrap_script (b : Bootstrap) : Except TransportError String :=
  match b.platform_info with
  | none => .error (.Bootstrap "Platform not detected")
  | some pi =>
    match b.custom_script with
    | some cs => .ok cs
    | none =>
      match pi.bootstrap_methods.head? with
      | none => .error (.Bootstrap "No bootstrap methods available")
      | some m => .ok (Bootstrap.scriptFor m)

/-- The bootstrap object `detect_platform` leaves behind for probe results
`p` (arch and version as parsed from the platform command's output). -/
def Bootstrap.afterDetect (arch : String) (version : Option String) (p : ProbeResults) : Bootstrap :=
  { platform_info := some ⟨arch, p.os, version, Bootstrap.detect_bootstrap_methods p⟩,
    custom_script := none }

/-! ## Frames (`mitoxide-proto/src/frame.rs`) -/

/-- `Frame` of `frame.rs`. `flags` is the `u8` inside the `FrameFlags`
newtype (`NONE = 0`, `END_STREAM = 1`, `ERROR = 2`, `FLOW_CONTROL = 4`). -/
structure Frame where
  stream_id : Nat
  sequence : Nat
  flags : Nat
  payload : List Nat
deriving DecidableEq, Repr

/-- `FrameFlags::has_flag`: bitwise and is nonzero. -/
def Frame.hasFlag (f : Frame) (flag : Nat) : Bool :=
  f.flags &&& flag != 0

/-- `Frame::is_end_stream`. -/
def Frame.is_end_stream (f : Frame) : Bool := f.hasFlag 1

/-- `Frame::is_error`. -/
def Frame.is_error (f : Frame) : Bool := f.hasFlag 2

/-- `Frame::data`: flags `NONE`. -/
def Frame.data (stream_id sequence : Nat) (payload : List Nat) : Frame :=
  ⟨stream_id, sequence, 0, payload⟩

/-- `Frame::end_stream`: flags `END_STREAM`, empty payload. -/
def Frame.end_stream (stream_id sequence : Nat) : Frame :=
  ⟨stream_id, sequence, 1, []⟩

/-- `Frame::error`: flags `ERROR`. -/
def Frame.mkErrorFrame (stream_id sequence : Nat) (payload : List Nat) : Frame :=
  ⟨stream_id, sequence, 2, payload⟩

/-- `ProtocolError` of `mitoxide-proto/src/error.rs`. -/
inductive ProtocolError where
  | Serialization (msg : String)
  | InvalidFrame
  | FrameTooLarge (size max : Nat)
  | StreamClosed
  | InvalidStreamId (id : Nat)
  | FlowControlViolation
deriving DecidableEq, Repr

/-! ## Stream multiplexer (`mitoxide-proto/src/stream.rs`) -/

/-- `StreamState` of `stream.rs`. -/
inductive StreamState where
  | Open
  | HalfClosed
  | Closed
deriving DecidableEq, Repr

/-- `FlowControlConfig` of `stream.rs`. -/
structure FlowControlConfig where
  initial_window_size : Nat
  max_window_size : Nat
  connection_window_size : Nat
deriving DecidableEq, Repr

/-- `FlowControlConfig::default()`: 64 KiB / 1 MiB / 1 MiB. -/
def FlowControlConfig.default : FlowControlConfig :=
  ⟨65536, 1048576, 1048576⟩

/-- `FlowControlState` of `stream.rs`. -/
structure FlowControlState where
  send_window : Nat
  recv_window : Nat
  initial_window_size : Nat
  bytes_in_flight : Nat
  bytes_buffered : Nat
deriving DecidableEq, Repr

/-- `FlowControlState::new`. -/
def FlowControlState.new (initial_window_size : Nat) : FlowControlState :=
  ⟨initial_window_size, initial_window_size, initial_window_size, 0, 0⟩

/-- `FlowControlState::can_send`. -/
def FlowControlState.can_send (fc : FlowControlState) (size : Nat) : Bool :=
  decide (size ≤ fc.send_window) && decide (fc.bytes_in_flight + size ≤ fc.initial_window_size)

/-- `FlowControlState::consume_send_credits`. -/
def FlowControlState.consume_send_credits (fc : FlowControlState) (size : Nat) :
    Except ProtocolError FlowControlState :=
  if fc.can_send size then
    .ok { fc with send_window := fc.send_window - size,
                  bytes_in_flight := fc.bytes_in_flight + size }
  else
    .error .FlowControlViolation

/-- `StreamInfo` of `stream.rs`. The `frame_sender` half of the per-stream
channel is modelled by `receiverAlive` (whether the `StreamHandle`'s
receiver is still held) and `queue` (the frames it has buffered). -/
structure StreamInfo where
  state : StreamState
  receiverAlive : Bool
  queue : List Frame
  next_sequence : Nat
  request_id : Option Nat
  flow_control : FlowControlState
deriving DecidableEq, Repr

/-- `StreamMultiplexer` of `stream.rs`: the shared mutable state behind the
struct. `outbound` is the multiplexer-wide frame channel fed by
`send_frame` (its receiver is owned by the multiplexer itself and stays
alive). `next_sequence` in the source counter is a `u32` whose overflow is
unreachable within a stream (the spec forbids wrapping); it is a `Nat`
here. -/
structure StreamMultiplexer where
  next_stream_id : Nat
  streams : List (Nat × StreamInfo)
  outbound : List Frame
  flow_control_config : FlowControlConfig
deriving DecidableEq, Repr

/-- `StreamMultiplexer::with_config`. -/
def StreamMultiplexer.with_config (config : FlowControlConfig) : StreamMultiplexer :=
  { next_stream_id := 1, streams := [], outbound := [], flow_control_config := config }

/-- `StreamMultiplexer::new`. -/
def StreamMultiplexer.new : StreamMultiplexer :=
  StreamMultiplexer.with_config FlowControlConfig.default

/-- `StreamHandle` of `stream.rs`: the handle's OWN copy of the stream
state (`self.state`), its own outgoing sequence counter, and the id. The
handle's frame receiver is the `queue`/`receiverAlive` pair stored in the
multiplexer's `StreamInfo`. -/
structure StreamHandle where
  stream_id : Nat
  next_sequence : Nat
  state : StreamState
deriving DecidableEq, Repr

/-- `StreamMultiplexer::create_stream`: allocates the next stream id,
registers an `Open` `StreamInfo` with `next_sequence = 0` and a fresh flow
control state, and returns the handle (own state `Open`, own counter 0). -/
def StreamMultiplexer.create_stream (m : StreamMultiplexer) (request_id : Option Nat) :
    StreamMultiplexer × StreamHandle :=
  let stream_id := m.next_stream_id
  let info : StreamInfo :=
    { state := .Open, receiverAlive := true, queue := [], next_sequence := 0,
      request_id := request_id,
      flow_control := FlowControlState.new m.flow_control_config.initial_window_size }
  ({ m with next_stream_id := m.next_stream_id + 1,
            streams := ainsert m.streams stream_id info },
   { stream_id := stream_id, next_sequence := 0, state := .Open })

/-- `StreamMultiplexer::route_frame`: look the stream up by id (absent →
`InvalidStreamId`); require the frame's sequence to equal the stream's
`next_sequence` (else `InvalidFrame`); increment `next_sequence`; mark the
stream `Closed` on `END_STREAM`; deliver the frame to the stream's queue,
evicting the stream when its receiver was dropped. -/
def StreamMultiplexer.route_frame (m : StreamMultiplexer) (f : Frame) :
    Except ProtocolError StreamMultiplexer :=
  match alookup m.streams f.stream_id with
  | none => .error (.InvalidStreamId f.stream_id)
  | some info =>
    if f.sequence ≠ info.next_sequence then
      .error .InvalidFrame
    else
      let info1 := { info with next_sequence := info.next_sequence + 1 }
      let info2 := if f.is_end_stream then { info1 with state := StreamState.Closed } else info1
      if info2.receiverAlive then
        .ok { m with streams := aupdate m.streams f.stream_id
                       (fun _ => { info2 with queue := info2.queue ++ [f] }) }
      else
        .ok { m with streams := aerase m.streams f.stream_id }

/-- The entry `route_frame` leaves for an accepted frame: expected sequence
bumped by one, `Closed` iff the frame carries `END_STREAM`, the frame
appended to the stream's queue, everything else untouched. -/
def StreamInfo.afterRoute (info : StreamInfo) (f : Frame) : StreamInfo :=
  { state := if f.is_end_stream then .Closed else info.state,
    receiverAlive := info.receiverAlive,
    queue := info.queue ++ [f],
    next_sequence := info.next_sequence + 1,
    request_id := info.request_id,
    flow_control := info.flow_control }

/-- The whole-multiplexer state after an accepted `route_frame` of `f` on
the stream entry `info`: only that entry changes, to `info.afterRoute f`. -/
def StreamMultiplexer.afterRouteM (m : StreamMultiplexer) (f : Frame) (info : StreamInfo) :
    StreamMultiplexer :=
  { m with streams := aupdate m.streams f.stream_id (fun _ => info.afterRoute f) }

/-- `route_frame` iterated over a list of frames, stopping at the first
failure (as `process_frames` does with `?`). -/
def StreamMultiplexer.routeAll (m : StreamMultiplexer) : List Frame →
    Except ProtocolError StreamMultiplexer
  | [] => .ok m
  | f :: fs =>
    match m.route_frame f with
    | .error e => .error e
    | .ok m1 => m1.routeAll fs

/-- `StreamMultiplexer::close_stream`. -/
def StreamMultiplexer.close_stream (m : StreamMultiplexer) (stream_id : Nat) :
    Except ProtocolError StreamMultiplexer :=
  match alookup m.streams stream_id with
  | none => .error (.InvalidStreamId stream_id)
  | some _ => .ok { m with streams := aerase m.streams stream_id }

/-- `StreamMultiplexer::stream_state`. -/
def StreamMultiplexer.stream_state (m : StreamMultiplexer) (stream_id : Nat) :
    Option StreamState :=
  (alookup m.streams stream_id).map (·.state)

/-- `StreamMultiplexer::can_send_data`. -/
def StreamMultiplexer.can_send_data (m : StreamMultiplexer) (stream_id size : Nat) :
    Except ProtocolError Bool :=
  match alookup m.streams stream_id with
  | none => .error (.InvalidStreamId stream_id)
  | some info => .ok (info.flow_control.can_send size)

/-- `StreamMultiplexer::send_frame`: the multiplexer-wide unbounded channel
whose receiver the multiplexer itself holds, so the send always succeeds. -/
def StreamMultiplexer.send_frame (m : StreamMultiplexer) (f : Frame) :
    Except ProtocolError StreamMultiplexer :=
  .ok { m with outbound := m.outbound ++ [f] }

/-- `StreamHandle::send_data`: refuse when the HANDLE's own state is
`Closed`; check flow control through the multiplexer (`?` propagates
`InvalidStreamId`); take the next sequence from the handle's own counter;
consume send credits on the map entry (skipped silently when the entry is
gone, as the source's `if let Some` does); hand the data frame to the
multiplexer's outbound channel. -/
def StreamHandle.send_data (h : StreamHandle) (m : StreamMultiplexer)
    (payload : List Nat) : Except ProtocolError (StreamHandle × StreamMultiplexer) :=
  if h.state = StreamState.Closed then
    .error .StreamClosed
  else
    let payload_size := payload.length
    match m.can_send_data h.stream_id payload_size with
    | .error e => .error e
    | .ok false => .error .FlowControlViolation
    | .ok true =>
      let sequence := h.next_sequence
      let h1 := { h with next_sequence := h.next_sequence + 1 }
      let frame := Frame.data h.stream_id sequence payload
      match alookup m.streams h.stream_id with
      | none =>
        match m.send_frame frame with
        | .ok m2 => .ok (h1, m2)
        | .error e => .error e
      | some info =>
        match info.flow_control.consume_send_credits payload_size with
        | .error e => .error e
        | .ok fc1 =>
          let m1 := { m with streams := aupdate m.streams h.stream_id
                               (fun _ => { info with flow_control := fc1 }) }
          match m1.send_frame frame with
          | .ok m2 => .ok (h1, m2)
          | .error e => .error e

/-- `StreamHandle::send_end_stream`: refuse when the handle's own state is
`Closed`; emit an `END_STREAM` frame and mark the handle `HalfClosed`. -/
def StreamHandle.send_end_stream (h : StreamHandle) (m : StreamMultiplexer) :
    Except ProtocolError (StreamHandle × StreamMultiplexer) :=
  if h.state = StreamState.Closed then
    .error .StreamClosed
  else
    let sequence := h.next_sequence
    let h1 := { h with next_sequence := h.next_sequence + 1, state := StreamState.HalfClosed }
    let frame := Frame.end_stream h.stream_id sequence
    match m.send_frame frame with
    | .ok m1 => .ok (h1, m1)
    | .error e => .error e

/-! ## Client router (`mitoxide/src/router.rs`) -/

/-- `MitoxideError` of `mitoxide/src/error.rs` (the variants the router
uses). `Timeout` carries the duration in milliseconds. -/
inductive MitoxideError where
  | Transport (msg : String)
  | Protocol (msg : String)
  | Agent (msg : String)
  | Timeout (duration_ms : Nat)
deriving DecidableEq, Repr

/-- A `tokio::sync::oneshot::Sender<Response>` registered in the pending
map: all that matters for a send on it is whether the caller still holds
the receiving half. -/
structure OneshotSender where
  receiverAlive : Bool
deriving DecidableEq, Repr

/-- `Router` of `router.rs`: the pending-requests map, the request timeout,
and the observable state of its two channels.
`message_channel_open` — whether the `ConnectionHandler` task still holds
`message_rx`. `shutdown_receiver_alive` — whether any receiver of the
channel behind `Router.shutdown_tx` exists; `Router::new` creates that
channel as `(router_shutdown_tx, _router_shutdown_rx)` and DROPS the
receiver when `new` returns, so for every router the source builds this
field is `false`. -/
structure Router where
  pending_requests : List (Nat × OneshotSender)
  request_timeout : Nat
  message_channel_open : Bool
  shutdown_receiver_alive : Bool
deriving DecidableEq, Repr

/-- `Router::new` (the router value it returns): empty pending map; the
message channel's receiver goes to the spawned connection handler; the
shutdown channel's receiver `_router_shutdown_rx` is dropped at the end of
`new`, leaving `shutdown_receiver_alive = false`. -/
def Router.new (timeout_ms : Nat) : Router :=
  { pending_requests := [], request_timeout := timeout_ms,
    message_channel_open := true, shutdown_receiver_alive := false }

/-- What the concurrent environment does to a call of
`Router::send_message` after the message is enqueued: either the response
channel delivers within the timeout, or the oneshot sender is dropped
(channel closed), or the timeout elapses first. -/
inductive AwaitOutcome where
  | responded (resp : Response)
  | channelClosed
  | timedOut
deriving DecidableEq, Repr

/-- `Router::send_message`: extract the request id (always present, see
`Message::request_id`), register a oneshot slot under it, enqueue the
message (failing with `Protocol "Failed to send message"` if the
connection-handler side of the channel is gone), then await the slot under
`request_timeout`. A timeout maps to `MitoxideError::Timeout`; a closed
slot to `Protocol "Response channel closed"`. When a response was
delivered, it was `ConnectionHandler::handle_response` that removed the
map entry before signalling the slot. NOTE: the timeout and closed paths
return without touching `pending_requests`. -/
def Router.send_message (r : Router) (message : Message) (outcome : AwaitOutcome) :
    Except MitoxideError Response × Router :=
  match message.request_id with
  | none => (.error (.Protocol "Message has no request ID"), r)
  | some request_id =>
    let r1 := { r with pending_requests := ainsert r.pending_requests request_id ⟨true⟩ }
    if ¬ r1.message_channel_open then
      (.error (.Protocol "Failed to send message"), r1)
    else
      match outcome with
      | .responded resp =>
        (.ok resp, { r1 with pending_requests := aerase r1.pending_requests request_id })
      | .channelClosed => (.error (.Protocol "Response channel closed"), r1)
      | .timedOut => (.error (.Timeout r1.request_timeout), r1)

/-- The observable result of `Router::shutdown`: the call's return value,
the router state afterwards, and the error responses actually delivered to
waiters (a delivery reaches a waiter only if its receiver is alive; the
source ignores the send result with `let _ =`). The drain loop runs only
after `shutdown_tx.send(()).await` SUCCEEDS — `?` returns early with
`Protocol "Failed to send shutdown signal"` when the shutdown channel's
receiver is gone. -/
def Router.shutdown (r : Router) :
    Except MitoxideError Unit × Router × List (Nat × Response) :=
  if r.shutdown_receiver_alive then
    (.ok (),
     { r with pending_requests := [] },
     (r.pending_requests.filter (fun p => p.2.receiverAlive)).map
       (fun p => (p.1, Response.mkError p.1 (ErrorDetails.new .InternalError "Router shutdown"))))
  else
    (.error (.Protocol "Failed to send shutdown signal"), r, [])

/-! ## Agent dispatch and the process handler
(`mitoxide-agent/src/agent.rs`, `mitoxide-agent/src/handlers.rs`) -/

instance instDecEqExcept {ε α : Type} [DecidableEq ε] [DecidableEq α] :
    DecidableEq (Except ε α) := fun x y =>
  match x, y with
  | .ok a, .ok b =>
    if h : a = b then .isTrue (by rw [h]) else .isFalse (by simp [h])
  | .error a, .error b =>
    if h : a = b then .isTrue (by rw [h]) else .isFalse (by simp [h])
  | .ok _, .error _ => .isFalse (by simp)
  | .error _, .ok _ => .isFalse (by simp)

/-- `std::process::Output` as the handler consumes it. -/
structure ProcOutput where
  status_code : Option Int
  stdout : List Nat
  stderr : List Nat
deriving DecidableEq, Repr

/-- What the operating system does to one `ProcessExec` request:
`spawn_error` — `some e` when `Command::spawn` fails with OS error string
`e`; `timerFired` — whether the `tokio::time::timeout` elapsed before
`wait_with_output` completed (consulted only when the request carries a
timeout); `wait_result` — the eventual result of `wait_with_output`;
`elapsed_ms` — the handler-side elapsed wall clock. -/
structure ExecEnv where
  spawn_error : Option String
  timerFired : Bool
  wait_result : Except String ProcOutput
  elapsed_ms : Nat
deriving DecidableEq, Repr

/-- `ProcessHandler::handle` of `handlers.rs`. Empty argv answers
`InvalidRequest`; a spawn failure PROPAGATES as the handler's `Err` (the
`.context("Failed to spawn process")?`), it does NOT produce a response; a
fired timeout answers `Timeout`; a failed wait answers `ProcessFailed`; a
completed wait answers `ProcessResult` (exit code `-1` when the status
carries none). Non-`ProcessExec` requests answer `Unsupported`. -/
def ProcessHandler.handle (request : Request) (env : ExecEnv) : Except String Response :=
  match request with
  | .ProcessExec id command _ _ _ timeout =>
    if command.isEmpty then
      .ok (Response.mkError id (ErrorDetails.new .InvalidRequest "Empty command"))
    else
      match env.spawn_error with
      | some _ => .error "Failed to spawn process"
      | none =>
        match timeout with
        | some _ =>
          if env.timerFired then
            .ok (Response.mkError id (ErrorDetails.new .Timeout "Process execution timed out"))
          else
            match env.wait_result with
            | .error e =>
              .ok (Response.mkError id (ErrorDetails.new .ProcessFailed ("Process error: " ++ e)))
            | .ok output =>
              .ok (.ProcessResult id (output.status_code.getD (-1)) output.stdout
                    output.stderr env.elapsed_ms)
        | none =>
          match env.wait_result with
          | .error e =>
            .ok (Response.mkError id (ErrorDetails.new .ProcessFailed ("Process error: " ++ e)))
          | .ok output =>
            .ok (.ProcessResult id (output.status_code.getD (-1)) output.stdout
                  output.stderr env.elapsed_ms)
  | _ =>
    .ok (Response.mkError request.id
          (ErrorDetails.new .Unsupported "ProcessHandler only handles ProcessExec requests"))

/-- The `request_type` tag match of `AgentLoop::handle_request`. -/
def requestTypeTag : Request → String
  | .ProcessExec .. => "process_exec"
  | .FileGet .. => "file_get"
  | .FilePut .. => "file_put"
  | .DirList .. => "dir_list"
  | .WasmExec .. => "wasm_exec"
  | .JsonCall .. => "json_call"
  | .Ping .. => "ping"
  | .PtyExec .. => "pty_exec"

/-- A registered handler, as the dispatch loop sees it: the request plus
its execution environment to a handler result. -/
def HandlerFn : Type := Request → ExecEnv → Except String Response

/-- The handler lookup of `AgentLoop::handle_request` (a `HashMap<String,
Arc<dyn Handler>>` keyed by tag). -/
def handlerLookup : List (String × HandlerFn) → String → Option HandlerFn
  | [], _ => none
  | (k, h) :: t, key => if k = key then some h else handlerLookup t key

/-- `AgentLoop::handle_request` of `agent.rs`, up to the response it sends
back: look the handler up by the request's tag; absent → `Unsupported`;
otherwise run it, converting a handler `Err(e)` into an `Error` response
with code `InternalError` and message `"Handler error: " ++ e` (the
`anyhow` display of the propagated error is its outermost context). -/
def AgentLoop.handle_request (handlers : List (String × HandlerFn))
    (request : Request) (env : ExecEnv) : Response :=
  match handlerLookup handlers (requestTypeTag request) with
  | none =>
    Response.mkError request.id
      (ErrorDetails.new .Unsupported ("Unsupported request type: " ++ requestTypeTag request))
  | some handler =>
    match handler request env with
    | .ok response => response
    | .error e =>
      Response.mkError request.id
        (ErrorDetails.new .InternalError ("Handler error: " ++ e))

/-- The agent as `main.rs` wires it: `ProcessHandler` registered under
`"process_exec"`; the response a dispatched `ProcessExec` request
produces. -/
def agentProcessExecResponse (request : Request) (env : ExecEnv) : Response :=
  AgentLoop.handle_request [("process_exec", ProcessHandler.handle)] request env

/-! ## WASM module loading (`mitoxide-wasm/src/module.rs`) -/

/-- `WasmCapability` of `module.rs`. -/
inductive WasmCapability where
  | WasiFs
  | WasiEnv
  | WasiArgs
  | WasiStdio
  | WasiNet
  | HostFunctions
deriving DecidableEq, Repr

/-- `WasmImport` of `module.rs`. -/
structure WasmImport where
  module : String
  name : String
deriving DecidableEq, Repr

/-- `WasmError` of `mitoxide-wasm/src/error.rs` (the variants the load path
uses). -/
inductive WasmError where
  | ModuleLoad (msg : String)
  | ModuleValidation (msg : String)
  | InvalidFormat (msg : String)
  | UnsupportedCapability (msg : String)
  | Execution (msg : String)
deriving DecidableEq, Repr

/-- What `wasmtime::Module::from_binary` yields on success: the module's
exports and imports (the only parts `extract_metadata` reads). -/
structure ParsedModule where
  exports : List String
  imports : List WasmImport
deriving DecidableEq, Repr

/-- `ModuleMetadata` of `module.rs`. The capability set is a list without
duplicates (insertion order; `HashSet::insert` semantics). -/
structure ModuleMetadata where
  hash : String
  size : Nat
  capabilities : List WasmCapability
  exports : List String
  imports : List WasmImport
  is_wasi : Bool
deriving DecidableEq, Repr

/-- `HashSet::insert`: add the capability unless already present. -/
def capInsert (caps : List WasmCapability) (c : WasmCapability) : List WasmCapability :=
  if caps.contains c then caps else caps ++ [c]

/-- One iteration of the import loop of `extract_metadata`: detect WASI
imports and their capabilities, and flag imports from modules other than
`env` and `wasi_*` as host functions. -/
def importStep (st : List WasmCapability × Bool) (imp : WasmImport) :
    List WasmCapability × Bool :=
  let (caps, is_wasi) := st
  if strStartsWith imp.module "wasi_" then
    let caps :=
      if strStartsWith imp.name "fd_" then capInsert (capInsert caps .WasiFs) .WasiStdio
      else if strStartsWith imp.name "environ_" then capInsert caps .WasiEnv
      else if strStartsWith imp.name "args_" then capInsert caps .WasiArgs
      else if strStartsWith imp.name "sock_" then capInsert caps .WasiNet
      else caps
    (caps, true)
  else if imp.module ≠ "env" then (capInsert caps .HostFunctions, is_wasi)
  else (caps, is_wasi)

/-- `WasmModule::extract_metadata` given the parse result (`sha256` is the
external digest of the full bytes): fold the import loop, and mark
`WasiStdio` for every WASI module. -/
def WasmModule.extract_metadata (sha256 : List Nat → String) (bytes : List Nat)
    (pm : ParsedModule) : ModuleMetadata :=
  let st := pm.imports.foldl importStep ([], false)
  let caps := if st.2 then capInsert st.1 .WasiStdio else st.1
  { hash := sha256 bytes, size := bytes.length, capabilities := caps,
    exports := pm.exports, imports := pm.imports, is_wasi := st.2 }

/-- The WebAssembly magic `b"\0asm"`. -/
def wasmMagic : List Nat := [0x00, 0x61, 0x73, 0x6d]

/-- `MAX_MODULE_SIZE` of `validate_basic_format`: 64 MiB. -/
def maxModuleSize : Nat := 64 * 1024 * 1024

/-- `WasmModule::validate_basic_format`: minimum 8 bytes, then the magic,
then the 64 MiB cap — all before any parsing. -/
def WasmModule.validate_basic_format (bytes : List Nat) : Except WasmError Unit :=
  if bytes.length < 8 then
    .error (.InvalidFormat "WASM module too small (minimum 8 bytes)")
  else if bytes.take 4 ≠ wasmMagic then
    .error (.InvalidFormat "Invalid WASM magic number")
  else if bytes.length > maxModuleSize then
    .error (.ModuleValidation ("Module too large: " ++ toString bytes.length ++
      " bytes (max: " ++ toString maxModuleSize ++ " bytes)"))
  else
    .ok ()

/-- `WasmModule::validate_module`: reject `WasiNet`; require `_start` of
WASI modules. -/
def WasmModule.validate_module (metadata : ModuleMetadata) : Except WasmError Unit :=
  if metadata.capabilities.contains .WasiNet then
    .error (.UnsupportedCapability "WASI networking is not supported")
  else if metadata.is_wasi && ¬ metadata.exports.contains "_start" then
    .error (.ModuleValidation "WASI module must export '_start' function")
  else
    .ok ()

/-- `WasmModule` of `module.rs` (the compiled artifact cache is external
state and starts empty). -/
structure WasmModule where
  bytes : List Nat
  metadata : ModuleMetadata
deriving DecidableEq, Repr

/-- `WasmModule::from_bytes`, parameterised by the external `wasmtime`
parser (`parse bytes = none` when `Module::from_binary` fails, its error
string abstracted) and the external SHA-256 digest: basic format first,
then parse + metadata extraction, then validation. -/
def WasmModule.from_bytes (parse : List Nat → Option ParsedModule)
    (sha256 : List Nat → String) (bytes : List Nat) : Except WasmError WasmModule :=
  match WasmModule.validate_basic_format bytes with
  | .error e => .error e
  | .ok _ =>
    match parse bytes with
    | none => .error (.ModuleLoad "failed to parse WebAssembly module")
    | some pm =>
      let metadata := WasmModule.extract_metadata sha256 bytes pm
      match WasmModule.validate_module metadata with
      | .error e => .error e
      | .ok _ => .ok { bytes := bytes, metadata := metadata }

/-- Whether a load result failed with `InvalidFormat`. -/
def isInvalidFormat : Except WasmError WasmModule → Bool
  | .error (.InvalidFormat _) => true
  | _ => false

/-- Whether a load result failed with `ModuleValidation`. -/
def isModuleValidation : Except WasmError WasmModule → Bool
  | .error (.ModuleValidation _) => true
  | _ => false

/-- Whether a load result failed with `UnsupportedCapability`. -/
def isUnsupportedCapability : Except WasmError WasmModule → Bool
  | .error (.UnsupportedCapability _) => true
  | _ => false

/-! ## Frame codec (`mitoxide-proto/src/codec.rs` and the MessagePack
encoding `rmp_serde` gives `Frame`)

`rmp_serde::to_vec` writes the struct as a fixed 4-element array; each
`u32` with `rmp::encode::write_uint` (the smallest unsigned format that
fits); the inner `u8` of `FrameFlags` the same way; the `Bytes` payload as
a `bin` blob with the smallest header. The decoder below accepts the
formats `rmp` reads for those fields. -/

/-- Big-endian 2-byte split. -/
def beBytes2 (n : Nat) : List Nat := [n / 256 % 256, n % 256]

/-- Big-endian 4-byte split. -/
def beBytes4 (n : Nat) : List Nat :=
  [n / 16777216 % 256, n / 65536 % 256, n / 256 % 256, n % 256]

/-- Big-endian recombination of four bytes. -/
def beVal4 (b3 b2 b1 b0 : Nat) : Nat :=
  ((b3 * 256 + b2) * 256 + b1) * 256 + b0

/-- `rmp::encode::write_uint`: positive fixint below 128, then `u8`/`u16`/
`u32`/`u64` markers with the minimal width. -/
def writeUint (n : Nat) : List Nat :=
  if n < 128 then [n]
  else if n < 256 then [0xcc, n]
  else if n < 65536 then 0xcd :: beBytes2 n
  else if n < 4294967296 then 0xce :: beBytes4 n
  else 0xcf :: beBytes4 (n / 4294967296) ++ beBytes4 (n % 4294967296)

/-- The unsigned-integer formats `rmp` reads back. -/
def readUint : List Nat → Option (Nat × List Nat)
  | [] => none
  | b :: rest =>
    if b < 128 then some (b, rest)
    else if b = 0xcc then
      match rest with
      | x :: r => some (x, r)
      | [] => none
    else if b = 0xcd then
      match rest with
      | a :: c :: r => some (a * 256 + c, r)
      | _ => none
    else if b = 0xce then
      match rest with
      | a :: c :: d :: e :: r => some (beVal4 a c d e, r)
      | _ => none
    else if b = 0xcf then
      match rest with
      | a :: c :: d :: e :: f :: g :: h :: i :: r =>
        some (beVal4 a c d e * 4294967296 + beVal4 f g h i, r)
      | _ => none
    else none

/-- `rmp::encode::write_bin`: `bin8`/`bin16`/`bin32` header with the
minimal width, then the raw bytes. -/
def writeBin (payload : List Nat) : List Nat :=
  (if payload.length < 256 then [0xc4, payload.length]
   else if payload.length < 65536 then 0xc5 :: beBytes2 payload.length
   else 0xc6 :: beBytes4 payload.length) ++ payload

/-- The `bin` formats `rmp` reads back (the announced count of raw bytes
must be available). -/
def readBin : List Nat → Option (List Nat × List Nat)
  | [] => none
  | b :: rest =>
    if b = 0xc4 then
      match rest with
      | len :: r => if len ≤ r.length then some (r.take len, r.drop len) else none
      | [] => none
    else if b = 0xc5 then
      match rest with
      | a :: c :: r =>
        let len := a * 256 + c
        if len ≤ r.length then some (r.take len, r.drop len) else none
      | _ => none
    else if b = 0xc6 then
      match rest with
      | a :: c :: d :: e :: r =>
        let len := beVal4 a c d e
        if len ≤ r.length then some (r.take len, r.drop len) else none
      | _ => none
    else none

/-- The array-header formats `rmp` reads for a struct (`fixarray`,
`array16`, `array32`); the writer emits the fixarray form. -/
def readArrayLen : List Nat → Option (Nat × List Nat)
  | [] => none
  | b :: rest =>
    if 0x90 ≤ b ∧ b ≤ 0x9f then some (b - 0x90, rest)
    else if b = 0xdc then
      match rest with
      | a :: c :: r => some (a * 256 + c, r)
      | _ => none
    else if b = 0xdd then
      match rest with
      | a :: c :: d :: e :: r => some (beVal4 a c d e, r)
      | _ => none
    else none

/-- `Frame::to_msgpack` (`rmp_serde::to_vec`): fixarray of 4, then the four
fields in order. -/
def Frame.to_msgpack (f : Frame) : List Nat :=
  0x94 :: (writeUint f.stream_id ++ writeUint f.sequence ++
           writeUint f.flags ++ writeBin f.payload)

/-- `Frame::from_msgpack` (`rmp_serde::from_slice`): a 4-element array,
then `stream_id : u32`, `sequence : u32`, `flags : u8` (each with its
range enforced, as `rmp_serde` enforces the target width), then the
payload as a `bin` blob. Trailing bytes after the value are not an error
(`from_slice` reads one value). -/
def Frame.from_msgpack (bytes : List Nat) : Option Frame :=
  match readArrayLen bytes with
  | none => none
  | some (n, r0) =>
    if n ≠ 4 then none else
    match readUint r0 with
    | none => none
    | some (stream_id, r1) =>
      if stream_id ≥ 4294967296 then none else
      match readUint r1 with
      | none => none
      | some (sequence, r2) =>
        if sequence ≥ 4294967296 then none else
        match readUint r2 with
        | none => none
        | some (flags, r3) =>
          if flags ≥ 256 then none else
          match readBin r3 with
          | none => none
          | some (payload, _) => some ⟨stream_id, sequence, flags, payload⟩

/-- `MAX_FRAME_SIZE` of `codec.rs`: 16 MiB. -/
def MAX_FRAME_SIZE : Nat := 16 * 1024 * 1024

/-- `FrameCodec` of `codec.rs`: the growable read buffer and the size
cap. -/
structure FrameCodec where
  read_buf : List Nat
  max_frame_size : Nat
deriving DecidableEq, Repr

/-- `FrameCodec::new`. -/
def FrameCodec.new : FrameCodec :=
  { read_buf := [], max_frame_size := MAX_FRAME_SIZE }

/-- `FrameCodec::encode_frame`: serialize to MessagePack, reject bodies
over `max_frame_size` with `FrameTooLarge`, else prefix the big-endian
`u32` length (`put_u32(len as u32)`). -/
def FrameCodec.encode_frame (c : FrameCodec) (f : Frame) :
    Except ProtocolError (List Nat) :=
  let frame_bytes := f.to_msgpack
  if frame_bytes.length > c.max_frame_size then
    .error (.FrameTooLarge frame_bytes.length c.max_frame_size)
  else
    .ok (beBytes4 (frame_bytes.length % 4294967296) ++ frame_bytes)

/-- `FrameCodec::try_decode_frame`: fewer than 4 buffered bytes → no frame
yet; read the `u32` length prefix; over the cap → `FrameTooLarge`; fewer
than `4 + length` buffered bytes → no frame yet; otherwise consume exactly
`4 + length` bytes and deserialize them (a MessagePack failure is a
`Serialization` error). Returns the decoded frame and the codec with the
consumed bytes removed. -/
def FrameCodec.try_decode_frame (c : FrameCodec) :
    Except ProtocolError (Option (Frame × FrameCodec)) :=
  match c.read_buf with
  | b0 :: b1 :: b2 :: b3 :: tail =>
    let frame_len := beVal4 b0 b1 b2 b3
    if frame_len > c.max_frame_size then
      .error (.FrameTooLarge frame_len c.max_frame_size)
    else if tail.length < frame_len then
      .ok none
    else
      match Frame.from_msgpack (tail.take frame_len) with
      | some f => .ok (some (f, { c with read_buf := tail.drop frame_len }))
      | none => .error (.Serialization "Failed to deserialize frame")
  | _ => .ok none

/-! ## Helper lemmas about the association-list embedding of `HashMap` -/

theorem alookup_ainsert_self {α : Type} (l : List (Nat × α)) (k : Nat) (v : α) :
    alookup (ainsert l k v) k = some v := by
  induction l with
  | nil => simp [ainsert, alookup]
  | cons hd t ih =>
    by_cases h : hd.1 = k
    · simp [ainsert, alookup, h]
    · simp [ainsert, alookup, h, ih]

theorem alookup_aupdate_self {α : Type} (l : List (Nat × α)) (k : Nat) (f : α → α) :
    alookup (aupdate l k f) k = (alookup l k).map f := by
  induction l with
  | nil => simp [aupdate, alookup]
  | cons hd t ih =>
    by_cases h : hd.1 = k
    · simp [aupdate, alookup, h]
    · simp [aupdate, alookup, h, ih]

theorem alookup_aupdate_ne {α : Type} (l : List (Nat × α)) (k k' : Nat) (f : α → α)
    (h : k' ≠ k) : alookup (aupdate l k f) k' = alookup l k' := by
  induction l with
  | nil => simp [aupdate, alookup]
  | cons hd t ih =>
    by_cases hk : hd.1 = k
    · have hne : k ≠ k' := fun hc => h hc.symm
      simp [aupdate, alookup, hk, hne]
    · simp [aupdate, alookup, hk, ih]

/-! ## C4 and C5 — bootstrap strategy selection -/

set_option maxRecDepth 10000

/-- C5 counterexample: on a Linux host where the memfd probe printed
`False`, python is present and `/dev/shm` is writable, the detection list
starts with `Python`, and the generated launcher is the python one — not
the `DevShm` launcher the claim's priority order (`MemfdCreate, DevShm,
TempFile, Python, Shell`) would pick. -/
theorem c5_python_preferred_over_devshm :
    (Bootstrap.detect_bootstrap_methods
        ⟨"Linux", some "False", true, some "available", some "available"⟩).head? =
      some BootstrapMethod.Python ∧
    (Bootstrap.afterDetect "x86_64" none
        ⟨"Linux", some "False", true, some "available", some "available"⟩).generate_bootstrap_script =
      Except.ok Bootstrap.generate_python_script ∧
    BootstrapMethod.Python ≠ BootstrapMethod.DevShm := by
  refine ⟨by decide, by decide, by decide⟩

/-- C5 (amended): strategy selection takes the first DETECTED capability in
the order the detection code pushes them — `MemfdCreate`, then `Python`,
then `DevShm`, then `TempFile`, then `Shell` — so Python outranks DevShm
and TempFile, contrary to the spec's order. -/
theorem c5_selection_first_detected (p : ProbeResults) (arch : String)
    (version : Option String) :
    (Bootstrap.afterDetect arch version p).generate_bootstrap_script =
      Except.ok (Bootstrap.scriptFor
        (if p.os == "Linux" && probeOutputIs p.memfd_output "True" then .MemfdCreate
         else if p.python_ok then .Python
         else if probeOutputIs p.devshm_output "available" then .DevShm
         else if probeOutputIs p.tmp_output "available" then .TempFile
         else .Shell)) := by
  simp only [Bootstrap.afterDetect, Bootstrap.generate_bootstrap_script,
    Bootstrap.detect_bootstrap_methods]
  by_cases h1 : (p.os == "Linux" && probeOutputIs p.memfd_output "True") = true <;>
    by_cases h2 : p.python_ok = true <;>
      by_cases h3 : probeOutputIs p.devshm_output "available" = true <;>
        by_cases h4 : probeOutputIs p.tmp_output "available" = true <;>
          simp [h1, h2, h3, h4]

/-- C4 counterexample: with the memfd probe printing `False` and `/dev/shm`
writable (and python present, about which the claim says nothing), the
chosen strategy is `Python`, not `DevShm`; and the DevShm launcher script
itself contains no `trap` at all, so no EXIT trap removing the agent file
is installed. -/
theorem c4_devshm_claim_fails :
    (Bootstrap.detect_bootstrap_methods
        ⟨"Linux", some "False", true, some "available", none⟩).head? =
      some BootstrapMethod.Python ∧
    containsSubstr Bootstrap.generate_devshm_script "trap" = false := by
  refine ⟨by decide, by decide⟩

/-- C4 (amended): when the memfd probe does not print `True`, `/dev/shm` is
writable and NO python interpreter is detected, the chosen strategy is
`DevShm` and the generated launcher contains the literal path prefix
`/dev/shm/`; it installs no EXIT trap (the `trap` line exists only in the
TempFile and Shell launchers). -/
theorem c4_devshm_selected_without_python (p : ProbeResults) (arch : String)
    (version : Option String)
    (hmem : probeOutputIs p.memfd_output "True" = false)
    (hpy : p.python_ok = false)
    (hshm : probeOutputIs p.devshm_output "available" = true) :
    (Bootstrap.detect_bootstrap_methods p).head? = some BootstrapMethod.DevShm ∧
    (Bootstrap.afterDetect arch version p).generate_bootstrap_script =
      Except.ok Bootstrap.generate_devshm_script ∧
    containsSubstr Bootstrap.generate_devshm_script "/dev/shm/" = true ∧
    containsSubstr Bootstrap.generate_devshm_script "trap" = false := by
  refine ⟨?_, ?_, by decide, by decide⟩
  · simp [Bootstrap.detect_bootstrap_methods, hmem, hpy, hshm]
  · simp [Bootstrap.afterDetect, Bootstrap.generate_bootstrap_script,
      Bootstrap.detect_bootstrap_methods, hmem, hpy, hshm, Bootstrap.scriptFor]

/-- C4 witness: the amendment instantiated at a concrete probe outcome
(Linux, memfd `False`, no python, `/dev/shm` writable). -/
theorem c4_devshm_selected_without_python_witness :
    (Bootstrap.detect_bootstrap_methods
        ⟨"Linux", some "False", false, some "available", some "available"⟩).head? =
      some BootstrapMethod.DevShm ∧
    (Bootstrap.afterDetect "x86_64" none
        ⟨"Linux", some "False", false, some "available", some "available"⟩).generate_bootstrap_script =
      Except.ok Bootstrap.generate_devshm_script ∧
    containsSubstr Bootstrap.generate_devshm_script "/dev/shm/" = true ∧
    containsSubstr Bootstrap.generate_devshm_script "trap" = false :=
  c4_devshm_selected_without_python
    ⟨"Linux", some "False", false, some "available", some "available"⟩
    "x86_64" none (by decide) (by decide) (by decide)

/-! ## C1 and C2 — the client router -/

/-- C1: `Router::new` drops `_router_shutdown_rx` when it returns, so every
`Router::shutdown` call fails its `shutdown_tx.send(())` and returns
`Protocol "Failed to send shutdown signal"` BEFORE the drain loop: no
pending waiter is cancelled and the pending map is left untouched —
here shown for any pending map and timeout. -/
theorem c1_shutdown_fails_before_drain (pending : List (Nat × OneshotSender))
    (timeout_ms : Nat) :
    Router.shutdown { Router.new timeout_ms with pending_requests := pending } =
      (Except.error (MitoxideError.Protocol "Failed to send shutdown signal"),
       { Router.new timeout_ms with pending_requests := pending }, []) := by
  simp [Router.shutdown, Router.new]

/-- C1 failing input: a router fresh from `Router::new` with one pending
waiter (request id 42, receiver alive). `shutdown` errors and delivers no
`InternalError "Router shutdown"` response; the map still holds the
entry. -/
theorem c1_shutdown_fails_concrete :
    Router.shutdown { Router.new 30000 with pending_requests := [(42, ⟨true⟩)] } =
      (Except.error (MitoxideError.Protocol "Failed to send shutdown signal"),
       { Router.new 30000 with pending_requests := [(42, ⟨true⟩)] }, []) ∧
    alookup (Router.shutdown { Router.new 30000 with
        pending_requests := [(42, ⟨true⟩)] }).2.1.pending_requests 42 = some ⟨true⟩ := by
  refine ⟨by decide, by decide⟩

/-- C2 counterexample: a `Ping` sent through a fresh router whose response
does not arrive within the timeout yields `Timeout`, but the request's
entry is STILL in the pending map afterwards (the timeout path of
`send_message` never removes it). -/
theorem c2_timeout_entry_not_removed :
    (Router.send_message (Router.new 30000)
        (Message.Request (Request.Ping 7 12345)) AwaitOutcome.timedOut).1 =
      Except.error (MitoxideError.Timeout 30000) ∧
    alookup (Router.send_message (Router.new 30000)
        (Message.Request (Request.Ping 7 12345)) AwaitOutcome.timedOut).2.pending_requests 7 =
      some ⟨true⟩ := by
  refine ⟨by decide, by decide⟩

/-- C2 (amended): on timeout the caller receives
`MitoxideError::Timeout{request_timeout}`, but the request's entry REMAINS
in the pending-requests map; entries are removed only when a response
arrives (`handle_response`) or when a shutdown drain runs. -/
theorem c2_timeout_error_and_entry_remains (r : Router) (message : Message) (id : Nat)
    (hid : message.request_id = some id)
    (hopen : r.message_channel_open = true) :
    (r.send_message message .timedOut).1 =
      Except.error (MitoxideError.Timeout r.request_timeout) ∧
    alookup (r.send_message message .timedOut).2.pending_requests id = some ⟨true⟩ := by
  unfold Router.send_message
  rw [hid]
  simp [hopen, alookup_ainsert_self]

/-- C2 witness: the amendment instantiated at a fresh router and a concrete
`Ping` request. -/
theorem c2_timeout_error_and_entry_remains_witness :
    ((Router.new 30000).send_message (Message.Request (Request.Ping 9 1)) .timedOut).1 =
      Except.error (MitoxideError.Timeout (Router.new 30000).request_timeout) ∧
    alookup ((Router.new 30000).send_message
        (Message.Request (Request.Ping 9 1)) .timedOut).2.pending_requests 9 = some ⟨true⟩ :=
  c2_timeout_error_and_entry_remains (Router.new 30000)
    (Message.Request (Request.Ping 9 1)) 9 (by decide) (by decide)

/-! ## C6 — `ProcessExec` error codes through the agent -/

/-- C6 counterexample: a `ProcessExec` whose spawn fails is answered with
`InternalError` (the handler propagates the spawn failure as its `Err`, and
the dispatch loop converts handler errors to `InternalError`), not with
`ProcessFailed` as the claim states. -/
theorem c6_spawn_failure_is_internal_error :
    agentProcessExecResponse
        (Request.ProcessExec 7 ["definitely-missing-binary"] [] none none (some 5))
        { spawn_error := some "No such file or directory (os error 2)",
          timerFired := false, wait_result := .error "", elapsed_ms := 0 } =
      Response.mkError 7
        (ErrorDetails.new .InternalError "Handler error: Failed to spawn process") ∧
    ErrorCode.InternalError ≠ ErrorCode.ProcessFailed := by
  refine ⟨by decide, by decide⟩

/-- C6 (amended): for a `ProcessExec` dispatched through the agent: empty
argv answers `InvalidRequest`; a SPAWN failure answers `InternalError`
("Handler error: Failed to spawn process") because the handler propagates
it; a fired timeout answers `Timeout`; a failed WAIT answers
`ProcessFailed`. -/
theorem c6_process_exec_error_codes (id : Nat) (command : List String)
    (envp : List (String × String)) (cwd : Option String) (stdin : Option (List Nat))
    (timeout : Option Nat) (env : ExecEnv) :
    (command = [] →
      agentProcessExecResponse (.ProcessExec id command envp cwd stdin timeout) env =
        Response.mkError id (ErrorDetails.new .InvalidRequest "Empty command")) ∧
    (command ≠ [] → ∀ e, env.spawn_error = some e →
      agentProcessExecResponse (.ProcessExec id command envp cwd stdin timeout) env =
        Response.mkError id
          (ErrorDetails.new .InternalError "Handler error: Failed to spawn process")) ∧
    (command ≠ [] → env.spawn_error = none → ∀ t, timeout = some t →
      env.timerFired = true →
      agentProcessExecResponse (.ProcessExec id command envp cwd stdin timeout) env =
        Response.mkError id (ErrorDetails.new .Timeout "Process execution timed out")) ∧
    (command ≠ [] → env.spawn_error = none → ∀ e, env.wait_result = .error e →
      (timeout = none ∨ env.timerFired = false) →
      agentProcessExecResponse (.ProcessExec id command envp cwd stdin timeout) env =
        Response.mkError id (ErrorDetails.new .ProcessFailed ("Process error: " ++ e))) := by
  refine ⟨?_, ?_, ?_, ?_⟩
  · intro h
    subst h
    simp [agentProcessExecResponse, AgentLoop.handle_request, requestTypeTag,
      handlerLookup, ProcessHandler.handle]
  · intro h e he
    cases command with
    | nil => exact absurd rfl h
    | cons c cs =>
      simp [agentProcessExecResponse, AgentLoop.handle_request, requestTypeTag,
        handlerLookup, ProcessHandler.handle, Request.id, he]
  · intro h he t ht hf
    subst ht
    cases command with
    | nil => exact absurd rfl h
    | cons c cs =>
      simp [agentProcessExecResponse, AgentLoop.handle_request, requestTypeTag,
        handlerLookup, ProcessHandler.handle, he, hf]
  · intro h he e hw hto
    cases command with
    | nil => exact absurd rfl h
    | cons c cs =>
      rcases hto with ht | hf
      · subst ht
        simp [agentProcessExecResponse, AgentLoop.handle_request, requestTypeTag,
          handlerLookup, ProcessHandler.handle, he, hw]
      · cases timeout with
        | none =>
          simp [agentProcessExecResponse, AgentLoop.handle_request, requestTypeTag,
            handlerLookup, ProcessHandler.handle, he, hw]
        | some t =>
          simp [agentProcessExecResponse, AgentLoop.handle_request, requestTypeTag,
            handlerLookup, ProcessHandler.handle, he, hw, hf]

/-- C6 witness: the amendment at concrete inputs — a fired timeout answers
`Timeout` (and, by the same theorem, an empty argv answers
`InvalidRequest`). -/
theorem c6_process_exec_error_codes_witness :
    agentProcessExecResponse (.ProcessExec 8 ["sleep", "5"] [] none none (some 1))
        { spawn_error := none, timerFired := true, wait_result := .error "", elapsed_ms := 0 } =
      Response.mkError 8 (ErrorDetails.new .Timeout "Process execution timed out") ∧
    agentProcessExecResponse (.ProcessExec 9 [] [] none none none)
        { spawn_error := none, timerFired := false, wait_result := .error "", elapsed_ms := 0 } =
      Response.mkError 9 (ErrorDetails.new .InvalidRequest "Empty command") :=
  ⟨(c6_process_exec_error_codes 8 ["sleep", "5"] [] none none (some 1)
      { spawn_error := none, timerFired := true, wait_result := .error "", elapsed_ms := 0 }).2.2.1
    (by decide) rfl 1 rfl rfl,
   (c6_process_exec_error_codes 9 [] [] none none none
      { spawn_error := none, timerFired := false, wait_result := .error "", elapsed_ms := 0 }).1
    rfl⟩

/-! ## C3 — sequence mismatch on a stream -/

/-- C3 counterexample: on a fresh multiplexer with one open stream (id 1,
expecting sequence 0), routing a frame with sequence 2 fails with
`InvalidFrame`, but the stream is NOT torn down: the multiplexer state is
untouched by the failing call, and routing the in-order frame with
sequence 0 afterwards still succeeds. -/
theorem c3_mismatch_leaves_stream_usable :
    (StreamMultiplexer.new.create_stream none).1.route_frame (Frame.data 1 2 [104]) =
      Except.error ProtocolError.InvalidFrame ∧
    ((StreamMultiplexer.new.create_stream none).1.route_frame
        (Frame.data 1 0 [104])).isOk = true := by
  refine ⟨by decide, by decide⟩

/-- C3 (amended): an out-of-order frame on an existing stream is rejected
with `InvalidFrame` and nothing else happens — `route_frame` returns on the
sequence check before any mutation, so the stream stays in the map with its
expected sequence unchanged and remains usable, and no other stream is
affected. -/
theorem c3_sequence_mismatch_rejected (m : StreamMultiplexer) (f : Frame)
    (info : StreamInfo)
    (hlook : alookup m.streams f.stream_id = some info)
    (hseq : f.sequence ≠ info.next_sequence) :
    m.route_frame f = Except.error ProtocolError.InvalidFrame := by
  unfold StreamMultiplexer.route_frame
  rw [hlook]
  simp [hseq]

/-- C3 witness: the amendment at the counterexample's concrete input. -/
theorem c3_sequence_mismatch_rejected_witness :
    (StreamMultiplexer.new.create_stream none).1.route_frame (Frame.data 1 2 [104]) =
      Except.error ProtocolError.InvalidFrame :=
  c3_sequence_mismatch_rejected (StreamMultiplexer.new.create_stream none).1
    (Frame.data 1 2 [104])
    { state := .Open, receiverAlive := true, queue := [], next_sequence := 0,
      request_id := none, flow_control := FlowControlState.new 65536 }
    (by decide) (by decide)

/-! ## C9 — WASM module load gates -/

/-- C9: the load gates of `WasmModule::from_bytes`, for every parser and
digest oracle: short inputs and wrong magic are `InvalidFormat` before any
parsing; over-64 MiB inputs (with good magic) are `ModuleValidation`;
modules whose derived capabilities include `WasiNet` are
`UnsupportedCapability`; WASI modules without a `_start` export are
`ModuleValidation`. -/
theorem c9_wasm_load_gates (parse : List Nat → Option ParsedModule)
    (sha256 : List Nat → String) (bytes : List Nat) (pm : ParsedModule) :
    (bytes.length < 8 → isInvalidFormat (WasmModule.from_bytes parse sha256 bytes) = true) ∧
    (bytes.take 4 ≠ wasmMagic →
      isInvalidFormat (WasmModule.from_bytes parse sha256 bytes) = true) ∧
    (bytes.take 4 = wasmMagic → bytes.length > maxModuleSize →
      isModuleValidation (WasmModule.from_bytes parse sha256 bytes) = true) ∧
    (parse bytes = some pm → WasmModule.validate_basic_format bytes = .ok () →
      WasmCapability.WasiNet ∈ (WasmModule.extract_metadata sha256 bytes pm).capabilities →
      isUnsupportedCapability (WasmModule.from_bytes parse sha256 bytes) = true) ∧
    (parse bytes = some pm → WasmModule.validate_basic_format bytes = .ok () →
      WasmCapability.WasiNet ∉ (WasmModule.extract_metadata sha256 bytes pm).capabilities →
      (WasmModule.extract_metadata sha256 bytes pm).is_wasi = true →
      "_start" ∉ (WasmModule.extract_metadata sha256 bytes pm).exports →
      isModuleValidation (WasmModule.from_bytes parse sha256 bytes) = true) := by
  refine ⟨?_, ?_, ?_, ?_, ?_⟩
  · intro h
    simp [WasmModule.from_bytes, WasmModule.validate_basic_format, h, isInvalidFormat]
  · intro h
    by_cases hl : bytes.length < 8
    · simp [WasmModule.from_bytes, WasmModule.validate_basic_format, hl, isInvalidFormat]
    · simp [WasmModule.from_bytes, WasmModule.validate_basic_format, hl, h, isInvalidFormat]
  · intro hm hl
    have h8 : ¬ bytes.length < 8 := by
      simp only [maxModuleSize] at hl
      omega
    simp [WasmModule.from_bytes, WasmModule.validate_basic_format, h8, hm, hl,
      isModuleValidation]
  · intro hp hval hcap
    simp [WasmModule.from_bytes, hval, hp, WasmModule.validate_module, hcap,
      isUnsupportedCapability]
  · intro hp hval hcap hwasi hstart
    simp [WasmModule.from_bytes, hval, hp, WasmModule.validate_module, hcap, hwasi,
      hstart, isModuleValidation]

/-- C9 witness: each gate at a concrete input — a 1-byte input, a 5-byte
input with wrong magic, an input of 64 MiB + 1 bytes with good magic, a
WASI module importing `sock_open`, and a WASI module without `_start`. -/
theorem c9_wasm_load_gates_witness :
    isInvalidFormat (WasmModule.from_bytes (fun _ => none) (fun _ => "h") [0]) = true ∧
    isInvalidFormat (WasmModule.from_bytes (fun _ => none) (fun _ => "h")
      [1, 2, 3, 4, 5, 6, 7, 8]) = true ∧
    isModuleValidation (WasmModule.from_bytes (fun _ => none) (fun _ => "h")
      ([0x00, 0x61, 0x73, 0x6d, 1, 0, 0, 0] ++ List.replicate 67108857 0)) = true ∧
    isUnsupportedCapability (WasmModule.from_bytes
      (fun _ => some ⟨["_start"], [⟨"wasi_snapshot_preview1", "sock_open"⟩]⟩)
      (fun _ => "h") [0x00, 0x61, 0x73, 0x6d, 1, 0, 0, 0]) = true ∧
    isModuleValidation (WasmModule.from_bytes
      (fun _ => some ⟨["memory"], [⟨"wasi_snapshot_preview1", "fd_write"⟩]⟩)
      (fun _ => "h") [0x00, 0x61, 0x73, 0x6d, 1, 0, 0, 0]) = true := by
  refine ⟨(c9_wasm_load_gates _ _ _ ⟨[], []⟩).1 (by decide),
    (c9_wasm_load_gates _ _ _ ⟨[], []⟩).2.1 (by decide),
    (c9_wasm_load_gates _ _ _ ⟨[], []⟩).2.2.1 ?_ ?_,
    (c9_wasm_load_gates _ _ _ ⟨["_start"], [⟨"wasi_snapshot_preview1", "sock_open"⟩]⟩).2.2.2.1
      rfl (by decide) (by decide),
    (c9_wasm_load_gates _ _ _ ⟨["memory"], [⟨"wasi_snapshot_preview1", "fd_write"⟩]⟩).2.2.2.2
      rfl (by decide) (by decide) (by decide) (by decide)⟩
  · rw [List.take_append_of_le_length (by decide)]
    decide
  · rw [List.length_append, List.length_replicate]
    decide

/-! ## C8 — the inbound routing contract and in-order delivery -/

/-- The accepted-step shape of `route_frame`: with the stream present, the
sequence matching and the receiver alive, the call succeeds and the ONLY
change is to that stream's entry, which becomes `info.afterRoute f`. -/
theorem route_frame_accept_step (m : StreamMultiplexer) (f : Frame) (info : StreamInfo)
    (hlook : alookup m.streams f.stream_id = some info)
    (hseq : f.sequence = info.next_sequence)
    (halive : info.receiverAlive = true) :
    m.route_frame f = Except.ok (m.afterRouteM f info) := by
  unfold StreamMultiplexer.route_frame StreamMultiplexer.afterRouteM StreamInfo.afterRoute
  rw [hlook]
  cases hend : f.is_end_stream <;> simp [hseq, hend, halive]

/-- Induction workhorse for in-order delivery: routing a list of frames all
addressed to a live stream, when it succeeds, appends exactly the sequence
numbers `next_sequence, next_sequence + 1, …` to that stream's queue. -/
theorem routeAll_queue_aux (fs : List Frame) :
    ∀ (m m' : StreamMultiplexer) (sid : Nat) (info : StreamInfo),
    alookup m.streams sid = some info → info.receiverAlive = true →
    (∀ g ∈ fs, g.stream_id = sid) →
    m.routeAll fs = .ok m' →
    ∃ info', alookup m'.streams sid = some info' ∧
      info'.queue.map Frame.sequence =
        info.queue.map Frame.sequence ++ List.range' info.next_sequence fs.length := by
  induction fs with
  | nil =>
    intro m m' sid info hlook halive _ hok
    simp only [StreamMultiplexer.routeAll] at hok
    cases hok
    exact ⟨info, hlook, by simp⟩
  | cons f fs ih =>
    intro m m' sid info hlook halive hall hok
    have hfsid : f.stream_id = sid := hall f (List.mem_cons_self f fs)
    simp only [StreamMultiplexer.routeAll] at hok
    cases hr : StreamMultiplexer.route_frame m f with
    | error e => rw [hr] at hok; cases hok
    | ok m1 =>
      rw [hr] at hok
      by_cases hs : f.sequence = info.next_sequence
      · rw [route_frame_accept_step m f info (hfsid ▸ hlook) hs halive] at hr
        have hm1 : m1 = m.afterRouteM f info := by
          injection hr with hr1
          exact hr1.symm
        subst hm1
        have hlook1 : alookup (m.afterRouteM f info).streams sid =
            some (info.afterRoute f) := by
          show alookup (aupdate m.streams f.stream_id (fun _ => info.afterRoute f)) sid = _
          rw [hfsid, alookup_aupdate_self, hlook]
          rfl
        have halive1 : (info.afterRoute f).receiverAlive = true := halive
        obtain ⟨info2, hl2, hq2⟩ := ih _ m' sid (info.afterRoute f) hlook1 halive1
          (fun g hg => hall g (List.mem_cons_of_mem f hg)) hok
        refine ⟨info2, hl2, ?_⟩
        rw [hq2]
        simp only [StreamInfo.afterRoute, List.map_append, List.map_cons, List.map_nil,
          List.length_cons, List.range'_succ, List.append_assoc]
        simp [hs]
      · exfalso
        unfold StreamMultiplexer.route_frame at hr
        rw [hfsid, hlook] at hr
        simp [hs] at hr

/-- C8: the inbound routing contract of `route_frame` — unknown stream ids
fail with `InvalidStreamId`; a frame whose sequence equals the stream's
expected one is accepted with the expected sequence bumped by exactly one,
the stream marked `Closed` exactly when `END_STREAM` is set and the frame
delivered to the stream's queue (`afterRoute`); and a run of accepted
frames into a fresh stream leaves its queue holding sequences `0, 1, 2, …`
in order with no gaps or duplicates. -/
theorem c8_route_frame_contract (m : StreamMultiplexer) (f : Frame) (sid : Nat)
    (fs : List Frame) :
    (alookup m.streams f.stream_id = none →
      m.route_frame f = Except.error (ProtocolError.InvalidStreamId f.stream_id)) ∧
    (∀ info, alookup m.streams f.stream_id = some info →
      f.sequence = info.next_sequence → info.receiverAlive = true →
      m.route_frame f = Except.ok (m.afterRouteM f info) ∧
      (info.afterRoute f).next_sequence = info.next_sequence + 1 ∧
      (info.afterRoute f).state = (if f.is_end_stream then .Closed else info.state) ∧
      (info.afterRoute f).queue = info.queue ++ [f]) ∧
    (∀ info, alookup m.streams sid = some info → info.next_sequence = 0 →
      info.queue = [] → info.receiverAlive = true →
      (∀ g ∈ fs, g.stream_id = sid) →
      ∀ m', m.routeAll fs = .ok m' →
      ∃ info', alookup m'.streams sid = some info' ∧
        info'.queue.map Frame.sequence = List.range fs.length) := by
  refine ⟨?_, ?_, ?_⟩
  · intro hnone
    unfold StreamMultiplexer.route_frame
    rw [hnone]
  · intro info hlook hseq halive
    exact ⟨route_frame_accept_step m f info hlook hseq halive, rfl, rfl, rfl⟩
  · intro info hlook hseq0 hq0 halive hall m' hok
    obtain ⟨info2, hl2, hq2⟩ := routeAll_queue_aux fs m m' sid info hlook halive hall hok
    refine ⟨info2, hl2, ?_⟩
    rw [hq2, hq0, hseq0]
    simp [List.range_eq_range']

/-- C8 witness: the in-order-delivery part on a fresh multiplexer with one
stream and the three frames of sequences 0, 1, 2. -/
theorem c8_route_frame_contract_witness :
    ∃ info', alookup (StreamMultiplexer.mk 2
        [(1, StreamInfo.mk .Open true
          [Frame.data 1 0 [1], Frame.data 1 1 [2], Frame.data 1 2 [3]] 3 none
          (FlowControlState.mk 65536 65536 65536 0 0))] []
        (FlowControlConfig.mk 65536 1048576 1048576)).streams 1 = some info' ∧
      info'.queue.map Frame.sequence = List.range 3 :=
  (c8_route_frame_contract (StreamMultiplexer.new.create_stream none).1
      (Frame.data 1 0 [1]) 1
      [Frame.data 1 0 [1], Frame.data 1 1 [2], Frame.data 1 2 [3]]).2.2
    (StreamInfo.mk .Open true [] 0 none (FlowControlState.mk 65536 65536 65536 0 0))
    (by decide) rfl rfl rfl (by decide) _ (by decide)

/-! ## C10 — the Closed check of `send_data` is local to the handle -/

/-- C10: after the multiplexer marks a stream `Closed` by routing an
inbound `END_STREAM` frame, `send_data` on the same stream's handle does
NOT return `StreamClosed`: the Closed check reads only the handle's own
`state` field, which inbound routing never touches, so the send still goes
through (subject only to flow control). -/
theorem c10_send_data_after_inbound_close (m m' : StreamMultiplexer)
    (h : StreamHandle) (info : StreamInfo) (ef : Frame) (payload : List Nat)
    (hstate : h.state = StreamState.Open)
    (hid : ef.stream_id = h.stream_id)
    (hlook : alookup m.streams h.stream_id = some info)
    (hseq : ef.sequence = info.next_sequence)
    (hend : ef.is_end_stream = true)
    (halive : info.receiverAlive = true)
    (hroute : m.route_frame ef = .ok m')
    (hfc : info.flow_control.can_send payload.length = true) :
    (∃ info', alookup m'.streams h.stream_id = some info' ∧ info'.state = .Closed) ∧
    (h.send_data m' payload).isOk = true ∧
    h.send_data m' payload ≠ Except.error ProtocolError.StreamClosed := by
  rw [route_frame_accept_step m ef info (hid ▸ hlook) hseq halive] at hroute
  have hm' : m' = m.afterRouteM ef info := by
    injection hroute with hr1
    exact hr1.symm
  subst hm'
  have hlook' : alookup (m.afterRouteM ef info).streams h.stream_id =
      some (info.afterRoute ef) := by
    show alookup (aupdate m.streams ef.stream_id (fun _ => info.afterRoute ef)) h.stream_id = _
    rw [hid, alookup_aupdate_self, hlook]
    rfl
  have hclosed : (info.afterRoute ef).state = StreamState.Closed := by
    simp [StreamInfo.afterRoute, hend]
  have hcansend : (m.afterRouteM ef info).can_send_data h.stream_id payload.length =
      .ok true := by
    unfold StreamMultiplexer.can_send_data
    rw [hlook']
    simp [StreamInfo.afterRoute, hfc]
  refine ⟨⟨info.afterRoute ef, hlook', hclosed⟩, ?_, ?_⟩ <;>
  · simp only [StreamHandle.send_data, hstate, hcansend]
    rw [hlook']
    simp [FlowControlState.consume_send_credits, StreamInfo.afterRoute, hfc,
      StreamMultiplexer.send_frame, Except.isOk, Except.toBool]

/-! ## C7 — frame codec round trip -/

/-- `readUint` inverts `writeUint` for values below `2^32` (the widths the
frame fields use), leaving the rest of the input untouched. -/
theorem readUint_writeUint (n : Nat) (r : List Nat) (h : n < 4294967296) :
    readUint (writeUint n ++ r) = some (n, r) := by
  unfold writeUint
  by_cases h1 : n < 128
  · simp [h1, readUint]
  · by_cases h2 : n < 256
    · simp [h1, h2, readUint]
    · by_cases h3 : n < 65536
      · simp [h1, h2, h3, readUint, beBytes2]
        omega
      · simp [h1, h2, h3, h, readUint, beBytes4, beVal4]
        omega

/-- `readBin` inverts `writeBin` for payloads below `2^32` bytes, leaving
the rest of the input untouched. -/
theorem readBin_writeBin (p r : List Nat) (h : p.length < 4294967296) :
    readBin (writeBin p ++ r) = some (p, r) := by
  unfold writeBin
  have hle : p.length ≤ (p ++ r).length := by simp
  by_cases h1 : p.length < 256
  · simp [h1, readBin, hle, List.take_left, List.drop_left]
  · by_cases h2 : p.length < 65536
    · have hrec : p.length / 256 % 256 * 256 + p.length % 256 = p.length := by omega
      simp [h1, h2, readBin, beBytes2, hrec, hle, List.take_left, List.drop_left]
    · have hrec : beVal4 (p.length / 16777216 % 256) (p.length / 65536 % 256)
          (p.length / 256 % 256) (p.length % 256) = p.length := by
        unfold beVal4
        omega
      simp [h1, h2, readBin, beBytes4, hrec, hle, List.take_left, List.drop_left]

/-- The payload is no longer than the serialized frame. -/
theorem payload_length_le_to_msgpack (f : Frame) :
    f.payload.length ≤ f.to_msgpack.length := by
  unfold Frame.to_msgpack
  simp only [List.length_cons, List.length_append]
  have hb : f.payload.length ≤ (writeBin f.payload).length := by
    unfold writeBin
    split_ifs <;> simp [List.length_append, beBytes2, beBytes4] <;> omega
  omega

/-- `from_msgpack` inverts `to_msgpack` when the four fields are within
their wire widths. -/
theorem from_msgpack_to_msgpack (f : Frame)
    (h1 : f.stream_id < 4294967296) (h2 : f.sequence < 4294967296)
    (h3 : f.flags < 256) (h4 : f.payload.length < 4294967296) :
    Frame.from_msgpack f.to_msgpack = some f := by
  have g1 : ¬ f.stream_id ≥ 4294967296 := by omega
  have g2 : ¬ f.sequence ≥ 4294967296 := by omega
  have g3 : ¬ f.flags ≥ 256 := by omega
  have h3w : f.flags < 4294967296 := by omega
  have hbin : readBin (writeBin f.payload) = some (f.payload, []) := by
    have hx := readBin_writeBin f.payload [] h4
    simpa using hx
  simp only [Frame.to_msgpack, Frame.from_msgpack, List.append_assoc]
  simp [readArrayLen, readUint_writeUint _ _ h1, readUint_writeUint _ _ h2,
    readUint_writeUint _ _ h3w, hbin, g1, g2, g3]

/-- C7: the codec round trip. For every frame within the wire field widths
whose encoding succeeds (its MessagePack body within `max_frame_size`),
`try_decode_frame` on the encoded bytes (followed by anything else in the
buffer) consumes exactly the 4-byte length prefix plus the announced body
length and returns a frame equal to the original in all four fields. -/
theorem c7_frame_codec_roundtrip (c : FrameCodec) (f : Frame) (enc rest : List Nat)
    (h1 : f.stream_id < 4294967296) (h2 : f.sequence < 4294967296)
    (h3 : f.flags < 256) (hmax : c.max_frame_size < 4294967296)
    (henc : c.encode_frame f = .ok enc) :
    FrameCodec.try_decode_frame { c with read_buf := enc ++ rest } =
      .ok (some (f, { c with read_buf := rest })) := by
  unfold FrameCodec.encode_frame at henc
  by_cases hlen : f.to_msgpack.length > c.max_frame_size
  · rw [if_pos hlen] at henc
    cases henc
  · rw [if_neg hlen] at henc
    injection henc with he
    subst he
    have hL : f.to_msgpack.length < 4294967296 := by omega
    have h4 : f.payload.length < 4294967296 :=
      Nat.lt_of_le_of_lt (payload_length_le_to_msgpack f) hL
    rw [Nat.mod_eq_of_lt hL]
    simp only [List.append_assoc, beBytes4, List.cons_append, List.nil_append]
    unfold FrameCodec.try_decode_frame
    simp only [List.nil_append]
    have hval : beVal4 (f.to_msgpack.length / 16777216 % 256)
        (f.to_msgpack.length / 65536 % 256) (f.to_msgpack.length / 256 % 256)
        (f.to_msgpack.length % 256) = f.to_msgpack.length := by
      unfold beVal4
      omega
    rw [hval]
    rw [if_neg hlen]
    have hnl : ¬ (f.to_msgpack ++ rest).length < f.to_msgpack.length := by
      simp only [List.length_append]
      omega
    rw [if_neg hnl, List.take_left, List.drop_left,
      from_msgpack_to_msgpack f h1 h2 h3 h4]

/-- C7 witness: the round trip at a concrete frame — stream 1, sequence 2,
`END_STREAM` flag, payload `"hi"` — with two trailing buffered bytes
preserved. -/
theorem c7_frame_codec_roundtrip_witness :
    FrameCodec.try_decode_frame { FrameCodec.new with
        read_buf := [0, 0, 0, 8, 148, 1, 2, 1, 196, 2, 104, 105] ++ [9, 9] } =
      .ok (some (⟨1, 2, 1, [104, 105]⟩, { FrameCodec.new with read_buf := [9, 9] })) :=
  c7_frame_codec_roundtrip FrameCodec.new ⟨1, 2, 1, [104, 105]⟩
    [0, 0, 0, 8, 148, 1, 2, 1, 196, 2, 104, 105] [9, 9]
    (by decide) (by decide) (by decide) (by decide) (by decide)

/-- C10 witness: a fresh stream whose peer closed it by `END_STREAM`; the
handle still sends a 2-byte data frame. -/
theorem c10_send_data_after_inbound_close_witness :
    (∃ info', alookup (StreamMultiplexer.mk 2
        [(1, StreamInfo.mk .Closed true [Frame.end_stream 1 0] 1 none
          (FlowControlState.mk 65536 65536 65536 0 0))] []
        (FlowControlConfig.mk 65536 1048576 1048576)).streams 1 = some info' ∧
      info'.state = .Closed) ∧
    ((StreamMultiplexer.new.create_stream none).2.send_data (StreamMultiplexer.mk 2
        [(1, StreamInfo.mk .Closed true [Frame.end_stream 1 0] 1 none
          (FlowControlState.mk 65536 65536 65536 0 0))] []
        (FlowControlConfig.mk 65536 1048576 1048576)) [5, 6]).isOk = true ∧
    (StreamMultiplexer.new.create_stream none).2.send_data (StreamMultiplexer.mk 2
        [(1, StreamInfo.mk .Closed true [Frame.end_stream 1 0] 1 none
          (FlowControlState.mk 65536 65536 65536 0 0))] []
        (FlowControlConfig.mk 65536 1048576 1048576)) [5, 6] ≠
      Except.error ProtocolError.StreamClosed :=
  c10_send_data_after_inbound_close (StreamMultiplexer.new.create_stream none).1 _
    (StreamMultiplexer.new.create_stream none).2
    (StreamInfo.mk .Open true [] 0 none (FlowControlState.mk 65536 65536 65536 0 0))
    (Frame.end_stream 1 0) [5, 6] rfl rfl (by decide) rfl (by decide) rfl (by decide)
    (by decide)

end Mitoxide
